import Mathlib

/-!
Verification of the JobHunter AI workflow core.

This file gives a shallow embedding, in Lean 4, of the pure logic of the
repository's workflow orchestration graph (`src/orchestration/workflow.py`)
and of the scoring agents it coordinates
(`src/agents/ghost_job_detector.py`, `src/agents/ats_scorer.py`,
`src/agents/job_matcher.py`), together with theorems about the embedded
definitions.

Modelling conventions:
* Python dicts whose relevant keys are known are modelled as structures;
  a key that may be absent (or whose value may be falsy) becomes an
  `Option` field, with `none` standing for "absent or falsy empty value".
* Python floats are modelled as rationals; `round(x, n)` is modelled by
  `roundTo n` (round half to even, as Python's `round`).
* An LLM round-trip (`invoke_llm` plus JSON parsing) is an effect outside
  the repository; each agent takes the parsed outcome of that round-trip
  as an explicit oracle argument (`none` models a `JSONDecodeError`, which
  the source replaces by a hard-coded fallback dict).
* A raised Python exception is modelled by `Except.error`; `PyError`
  records the exception class the source raises.
* Strings are compared and searched exactly as in Python (`in` is
  substring containment, `.lower()` is per-character lowercasing; the
  inputs of interest are ASCII).
-/

inductive PyError where
  | valueError : String → PyError
deriving DecidableEq

/-! ### Python `round` (banker's rounding) on rationals -/

/-- Round a rational to the nearest integer, ties to even, as Python's
built-in `round` does. -/
def rnd (x : ℚ) : ℤ :=
  if x - x.floor < 1/2 then x.floor
  else if x - x.floor > 1/2 then x.floor + 1
  else if x.floor % 2 = 0 then x.floor else x.floor + 1

/-- Python's `round(x, n)`: round to `n` decimal places, ties to even. -/
def roundTo (n : ℕ) (x : ℚ) : ℚ := (rnd (x * 10 ^ n) : ℚ) / 10 ^ n

/-! ### String helpers mirroring the Python string operations used -/

/-- Python's `str.lower()` (per-character; ASCII suffices here). -/
def lowerStr (s : String) : String := String.mk (s.data.map Char.toLower)

/-- Auxiliary scan for substring containment. -/
def subAux (pat : List Char) : List Char → Bool
  | [] => pat.isEmpty
  | c :: rest => pat.isPrefixOf (c :: rest) || subAux pat rest

/-- Python's `pat in s` on strings: substring containment. -/
def strContains (s pat : String) : Bool := subAux pat.toList s.toList

/-- Python truthiness of an optional string (`None` and `""` are falsy). -/
def optStrTruthy : Option String → Bool
  | none => false
  | some s => !(s == "")

/-! ### Job postings (the dicts consumed by the agents) -/

/-- A job posting dict, with the keys the embedded code reads.  `none`
models an absent key or a falsy value. -/
structure Job where
  title : Option String
  company : Option String
  description : Option String
  salary : Option String
deriving DecidableEq

/-! ### GhostJobDetector (src/agents/ghost_job_detector.py) -/

def urgency_words : List String :=
  ["urgent", "immediate", "asap", "apply now", "hiring immediately"]

def typo_indicators : List String := ["teh", "recieve", "seperate", "occured"]

def generic_names : List String := ["company", "corporation", "inc", "llc", "firm"]

/-- The lowercased description read by `_calculate_heuristic_score`. -/
def jobDescLower (j : Job) : String := lowerStr (j.description.getD "")

/-- The lowercased title read by `_calculate_heuristic_score`. -/
def jobTitleLower (j : Job) : String := lowerStr (j.title.getD "")

/-- The lowercased company name read by `_calculate_heuristic_score`. -/
def jobCompanyLower (j : Job) : String := lowerStr (j.company.getD "")

/-- `GhostJobDetector._calculate_heuristic_score`, translated line by
line: seven red-flag penalties accumulated into `score`, capped at 100.
Scores are natural numbers, as the Python accumulation is on ints. -/
def calculate_heuristic_score (job : Job) : ℕ :=
  let description := jobDescLower job
  let title := jobTitleLower job
  let score0 := 0
  let score1 := score0 + (if optStrTruthy job.salary then 0 else 20)
  let score2 := score1 + (if description.length < 100 then 15 else 0)
  let score3 := score2 +
    (if urgency_words.any (fun w => strContains description w) then 15 else 0)
  let score4 := score3 +
    (if (strContains title "entry" || strContains title "junior")
        && (strContains description "5+ years" || strContains description "10+ years")
     then 10 else 0)
  let score5 := score4 +
    min ((typo_indicators.countP (fun t => strContains description t)) * 5) 15
  let company := jobCompanyLower job
  let score6 := score5 +
    (if generic_names.any (fun n => strContains company n) && company.length < 15
     then 10 else 0)
  let score7 := score6 +
    (if !strContains description "requirements" && !strContains description "qualifications"
     then 15 else 0)
  min score7 100

/-- `GhostJobDetector._get_recommendation`. -/
def get_recommendation (ghost_score : ℚ) : String :=
  if ghost_score < 40 then "Apply"
  else if ghost_score < 65 then "Caution"
  else "Skip"

/-- The dict produced by `GhostJobDetector._llm_analysis` after JSON
parsing; each key may be absent. -/
structure GhostLLM where
  score : Option ℚ
  red_flags : Option (List String)
deriving DecidableEq

/-- The fallback dict `_llm_analysis` returns on a `JSONDecodeError`. -/
def ghostLLMFallback : GhostLLM :=
  { score := some 50, red_flags := some ["Unable to parse LLM response"] }

/-- Outcome of `_llm_analysis` given the oracle for the LLM round-trip
(`none` models an unparseable response). -/
def llmAnalysisDict (llm : Option GhostLLM) : GhostLLM := llm.getD ghostLLMFallback

/-- The combined score `final_score` computed inside `GhostJobDetector.run`:
`(heuristic_score * 0.4) + (llm_analysis.get("score", 50) * 0.6)`. -/
def ghost_final_score (job : Job) (llm : Option GhostLLM) : ℚ :=
  (calculate_heuristic_score job : ℚ) * (4/10)
    + ((llmAnalysisDict llm).score.getD 50) * (6/10)

/-- The result dict of `GhostJobDetector.run`. -/
structure GhostResult where
  is_ghost_job : Bool
  confidence : ℚ
  ghost_score : ℚ
  red_flags : List String
  recommendation : String
deriving DecidableEq

/-- `GhostJobDetector.run`.  `job_posting = none` models a missing or
falsy `job_posting` input; `llm` is the oracle for `_llm_analysis`. -/
def ghostRun (job_posting : Option Job) (llm : Option GhostLLM) :
    Except PyError GhostResult :=
  match job_posting with
  | none => .error (PyError.valueError "job_posting is required")
  | some job =>
    let final_score := ghost_final_score job llm
    .ok {
      is_ghost_job := decide (final_score > 60)
      confidence := roundTo 2 (|final_score - 50| / 50)
      ghost_score := roundTo 1 final_score
      red_flags := (llmAnalysisDict llm).red_flags.getD []
      recommendation := get_recommendation final_score }

/-! ### ATSScorer (src/agents/ats_scorer.py) -/

/-- Character class `[A-Z]` of the keyword-extraction regex. -/
def isUpperA (c : Char) : Bool := 'A' ≤ c && c ≤ 'Z'

/-- Character class `[a-z]` of the keyword-extraction regex. -/
def isLowerA (c : Char) : Bool := 'a' ≤ c && c ≤ 'z'

/-- Word characters for the regex's word boundary `\b`. -/
def isWordA (c : Char) : Bool := c.isAlphanum || c == '_'

/-- Whitespace for the regex's `\s`. -/
def isSpaceA (c : Char) : Bool := c.isWhitespace

/-- Match `[A-Z][a-z]+` at the head of the character list, returning the
matched word and the remainder. -/
def wordAt : List Char → Option (List Char × List Char)
  | [] => none
  | c :: rest =>
    if isUpperA c then
      match rest.span isLowerA with
      | (run, r2) => if run.isEmpty then none else some (c :: run, r2)
    else none

/-- The regex's trailing `\b`: the next character, if any, is a non-word
character. -/
def boundaryOk : List Char → Bool
  | [] => true
  | c :: _ => !isWordA c

/-- Greedy repetitions of the regex group `(?:\s+[A-Z][a-z]+)`, returning
every cumulative match together with its remainder (used for
backtracking on the final word boundary). -/
def extendChain : ℕ → List Char → List Char → List (List Char × List Char)
  | 0, _, _ => []
  | fuel + 1, consumed, cs =>
    match cs.span isSpaceA with
    | (sp, r) =>
      if sp.isEmpty then []
      else
        match wordAt r with
        | some (w, r2) =>
          (consumed ++ sp ++ w, r2) :: extendChain fuel (consumed ++ sp ++ w) r2
        | none => []

/-- Match `[A-Z][a-z]+(?:\s+[A-Z][a-z]+)*\b` at the head of the list:
greedily extend the chain of capitalized words, then backtrack to the
longest prefix whose end sits on a word boundary. -/
def matchAt (cs : List Char) : Option (List Char × List Char) :=
  match wordAt cs with
  | none => none
  | some (w, rest) =>
    ((w, rest) :: extendChain cs.length w rest).reverse.find? (fun p => boundaryOk p.2)

/-- `re.findall` for the pattern `\b[A-Z][a-z]+(?:\s+[A-Z][a-z]+)*\b`:
scan left to right, matching only at word boundaries, non-overlapping.
The `prevWord` flag records whether the previous character is a word
character (for the leading `\b`). -/
def findCaps : ℕ → Bool → List Char → List String
  | 0, _, _ => []
  | fuel + 1, prevWord, cs =>
    match cs with
    | [] => []
    | c :: rest =>
      if !prevWord then
        match matchAt (c :: rest) with
        | some (m, r2) => String.mk m :: findCaps fuel true r2
        | none => findCaps fuel (isWordA c) rest
      else findCaps fuel (isWordA c) rest

/-- The hard-coded tech-term list of `ATSScorer._extract_keywords`. -/
def tech_terms : List String :=
  ["Python", "Java", "JavaScript", "TypeScript", "React", "Angular", "Vue",
   "Node.js", "Django", "Flask", "Spring", "AWS", "Azure", "GCP", "Docker",
   "Kubernetes", "SQL", "NoSQL", "MongoDB", "PostgreSQL", "Redis",
   "Git", "CI/CD", "Agile", "Scrum", "REST", "GraphQL", "API",
   "Machine Learning", "AI", "Data Science", "TensorFlow", "PyTorch"]

/-- `ATSScorer._extract_keywords`: capitalized-word regex matches plus the
tech terms contained (case-insensitively) in the text, deduplicated
(Python's `list(set(...))`; the set's iteration order is arbitrary, and
nothing downstream depends on the order, only on membership and size). -/
def extract_keywords (text : String) : List String :=
  let words := findCaps (text.data.length + 1) false text.data
  let fromTech := tech_terms.filter
    (fun term => strContains (lowerStr text) (lowerStr term))
  (words ++ fromTech).eraseDups

/-- The value stored under the `"skills"` key of a parsed resume: either a
dict of categories (each category value that is a list contributes its
items; `none` models a non-list value, which the source skips), a flat
list, or something else entirely. -/
inductive SkillsVal where
  | dict : List (String × Option (List String)) → SkillsVal
  | list : List String → SkillsVal
  | other : SkillsVal
deriving DecidableEq

/-- One entry of the `"experience"` list of a parsed resume. -/
structure ExpEntry where
  responsibilities : Option (List String)
deriving DecidableEq

/-- A parsed resume dict, with the keys the embedded code reads. -/
structure ResumeDict where
  skills : Option SkillsVal
  experience : Option (List ExpEntry)
  raw_text : Option String
deriving DecidableEq

/-- `ATSScorer._extract_resume_skills`: structured skills, then keywords
from experience responsibilities, then (only if both are empty) keywords
from the raw text; deduplicated. -/
def extract_resume_skills (resume_data : ResumeDict) : List String :=
  let s1 :=
    match resume_data.skills with
    | some (SkillsVal.dict cats) => cats.foldl (fun acc kv => acc ++ kv.2.getD []) []
    | some (SkillsVal.list l) => l
    | _ => []
  let s2 :=
    match resume_data.experience with
    | some exps =>
      exps.foldl (fun acc e =>
        acc ++ (e.responsibilities.getD []).foldl
          (fun a resp => a ++ extract_keywords resp) []) []
    | none => []
  let s12 := s1 ++ s2
  let s :=
    if s12.isEmpty then
      match resume_data.raw_text with
      | some t => s12 ++ extract_keywords t
      | none => s12
    else s12
  s.eraseDups

/-- `ATSScorer._calculate_keyword_score`. -/
def calculate_keyword_score (resume_skills job_keywords : List String) : ℚ :=
  if job_keywords.isEmpty then 100
  else
    let resume_skills_lower := resume_skills.map lowerStr
    let job_keywords_lower := job_keywords.map lowerStr
    let matchCount := job_keywords_lower.countP (fun k => resume_skills_lower.contains k)
    min ((matchCount : ℚ) / (job_keywords.length : ℚ) * 100) 100

/-- `ATSScorer._calculate_skills_score`.  `set(job_keywords +
company_tech_stack)` is modelled by `eraseDups` (membership and size are
all that matter downstream). -/
def calculate_skills_score
    (resume_skills job_keywords company_tech_stack : List String) : ℚ :=
  let all_required := (job_keywords ++ company_tech_stack).eraseDups
  if all_required.isEmpty then 100
  else
    let resume_skills_lower := resume_skills.map lowerStr
    let required_lower := all_required.map lowerStr
    let matchCount := required_lower.countP (fun r => resume_skills_lower.contains r)
    min ((matchCount : ℚ) / (all_required.length : ℚ) * 100) 100

/-- The dict produced by `ATSScorer._llm_analysis` after JSON parsing;
each key may be absent. -/
structure AtsLLM where
  experience_score : Option ℚ
  format_score : Option ℚ
  recommendations : Option (List String)
  strengths : Option (List String)
deriving DecidableEq

/-- The fallback dict `ATSScorer._llm_analysis` returns on a
`JSONDecodeError`. -/
def atsLLMFallback : AtsLLM :=
  { experience_score := some 70, format_score := some 90,
    recommendations := some ["Unable to parse LLM response"], strengths := some [] }

/-- The input dict of `ATSScorer.run`. -/
structure AtsInput where
  resume_data : Option ResumeDict
  job_description : Option String
  company_tech_stack : Option (List String)

/-- The validation check at the top of `ATSScorer.run`
(`if not resume_data or not job_description`). -/
def atsValid (input : AtsInput) : Bool :=
  input.resume_data.isSome && !((input.job_description.getD "") == "")

/-- The breakdown dict of the `ATSScorer.run` result. -/
structure AtsBreakdown where
  keyword_score : ℚ
  skills_score : ℚ
  experience_score : ℚ
  format_score : ℚ
deriving DecidableEq

/-- The result dict of `ATSScorer.run`. -/
structure AtsResult where
  score : ℚ
  breakdown : AtsBreakdown
  missing_keywords : List String
  recommendations : List String
  strengths : List String
deriving DecidableEq

/-- `ATSScorer.run`.  `llm` is the oracle for `_llm_analysis` (`none`
models an unparseable LLM response). -/
def atsRun (input : AtsInput) (llm : Option AtsLLM) : Except PyError AtsResult :=
  match input.resume_data, input.job_description with
  | some resume_data, some job_description =>
    if job_description = "" then
      .error (PyError.valueError "resume_data and job_description are required")
    else
      let job_keywords := extract_keywords job_description
      let resume_skills := extract_resume_skills resume_data
      let keyword_score := calculate_keyword_score resume_skills job_keywords
      let skills_score := calculate_skills_score resume_skills job_keywords
        (input.company_tech_stack.getD [])
      let llm_analysis := llm.getD atsLLMFallback
      let experience_score := llm_analysis.experience_score.getD 70
      let format_score := llm_analysis.format_score.getD 90
      let total_score := keyword_score * (4/10) + skills_score * (3/10)
        + experience_score * (2/10) + format_score * (1/10)
      let missing_keywords :=
        (job_keywords.filter (fun k => !(resume_skills.contains k))).take 10
      .ok {
        score := roundTo 1 total_score
        breakdown := {
          keyword_score := roundTo 1 keyword_score
          skills_score := roundTo 1 skills_score
          experience_score := experience_score
          format_score := format_score }
        missing_keywords := missing_keywords
        recommendations := llm_analysis.recommendations.getD []
        strengths := llm_analysis.strengths.getD [] }
  | _, _ => .error (PyError.valueError "resume_data and job_description are required")

/-! ### JobMatcher (src/agents/job_matcher.py) -/

/-- `JobMatcher._extract_skills`. -/
def extract_skills (resume_data : ResumeDict) : List String :=
  (match resume_data.skills with
    | some (SkillsVal.dict cats) =>
      cats.foldl (fun acc (kv : String × Option (List String)) => acc ++ kv.2.getD []) []
    | some (SkillsVal.list l) => l
    | _ => []).eraseDups

/-- The match dict produced by `JobMatcher._calculate_match` after JSON
parsing of the LLM response. -/
structure MatchParsed where
  match_score : ℚ
  match_level : String
  strengths : List String
  gaps : List String
  recommendation : String
  reasoning : String
deriving DecidableEq

/-- The LLM round-trip oracle of `JobMatcher._calculate_match`: the raw
response text and, when the response parses as JSON, the parsed dict. -/
structure MatchLLM where
  raw : String
  parsed : Option MatchParsed

/-- The fallback dict `_calculate_match` builds on a `JSONDecodeError`. -/
def matchFallback (response : String) : MatchParsed :=
  { match_score := 60, match_level := "Fair",
    strengths := ["Unable to parse detailed analysis"], gaps := [],
    recommendation := "Maybe", reasoning := response.take 200 }

/-- The input dict of `JobMatcher.run`.  `company_data` is only
interpolated into the prompt, so its payload is opaque here. -/
structure MatchInput where
  resume_data : Option ResumeDict
  job_posting : Option Job
  company_data : Option String

/-- The validation check at the top of `JobMatcher.run`
(`if not resume_data or not job_posting`). -/
def matcherValid (input : MatchInput) : Bool :=
  input.resume_data.isSome && input.job_posting.isSome

/-- `JobMatcher.run`.  `llm` is the oracle for the `_calculate_match`
LLM round-trip. -/
def matcherRun (input : MatchInput) (llm : MatchLLM) : Except PyError MatchParsed :=
  match input.resume_data, input.job_posting with
  | some resume_data, some _ =>
    let _candidate_skills := extract_skills resume_data
    .ok (llm.parsed.getD (matchFallback llm.raw))
  | _, _ => .error (PyError.valueError "resume_data and job_posting are required")

/-! ### The workflow graph (src/orchestration/workflow.py)

The compiled LangGraph is a fixed graph over named nodes; its execution
is modelled by following the graph's edges from the entry point,
applying each visited node's state transformer, the state returned by a
node being the input of its successor.  Each node's agent call is
abstracted by an outcome oracle (`WFOutcomes`): since every node runs at
most once per invocation (a consequence proved below, not an
assumption), one predetermined outcome per node captures any concrete
run.  `Except.error e` models the node's `try` block raising an
exception whose `str` is `e`. -/

/-- Opaque payload of `CompanyResearcher.run` (the workflow stores it and
passes it on; its contents never influence control flow). -/
structure CompanyData where
  payload : String
deriving DecidableEq

/-- The fields of the `JobMatcher.run` result that `match_job_node`
reads (`match_score` for the status string, `recommendation` for the
branch decision). -/
structure WFMatchResult where
  match_score : Int
  recommendation : String
deriving DecidableEq

/-- The field of the `ATSScorer.run` result that `score_ats_node` reads. -/
structure WFAts where
  score : ℚ
deriving DecidableEq

/-- The field of the `ResumeOptimizer.run` result that
`optimize_resume_node` reads. -/
structure WFOpt where
  expected_score_improvement : Int
deriving DecidableEq

/-- Opaque payload of `EmailWriter.run`. -/
structure WFEmail where
  payload : String
deriving DecidableEq

/-- One predetermined agent-call outcome per node of the graph. -/
structure WFOutcomes where
  parseResume : Except String ResumeDict
  researchCompany : Except String CompanyData
  matchJob : Except String WFMatchResult
  scoreAts : Except String WFAts
  optimizeResume : Except String WFOpt
  writeEmail : Except String WFEmail

/-- `JobApplicationState`: the workflow state dict.  The six intermediate
result fields start as empty dicts, modelled by `none`. -/
structure WFState where
  resume_path : String
  job_posting : Job
  resume_data : Option ResumeDict
  company_data : Option CompanyData
  match_result : Option WFMatchResult
  ats_score : Option WFAts
  optimized_resume : Option WFOpt
  email : Option WFEmail
  should_apply : Bool
  errors : List String
  status : String

/-- The initial state built by `JobApplicationWorkflow.run`. -/
def initialState (resume_path : String) (job_posting : Job) : WFState :=
  { resume_path := resume_path, job_posting := job_posting,
    resume_data := none, company_data := none, match_result := none,
    ats_score := none, optimized_resume := none, email := none,
    should_apply := false, errors := [], status := "Starting" }

/-- `parse_resume_node`. -/
def parse_resume_node (oc : WFOutcomes) (s : WFState) : WFState :=
  match oc.parseResume with
  | .ok result => { s with resume_data := some result, status := "Resume parsed" }
  | .error e => { s with errors := s.errors ++ ["Resume parsing failed: " ++ e] }

/-- `research_company_node` (its `except` branch also resets
`company_data` to an empty dict). -/
def research_company_node (oc : WFOutcomes) (s : WFState) : WFState :=
  match oc.researchCompany with
  | .ok result => { s with company_data := some result, status := "Company researched" }
  | .error e => { s with errors := s.errors ++ ["Company research failed: " ++ e],
                         company_data := none }

/-- `match_job_node`: stores the match result, and sets `should_apply`
to whether the recommendation is `"Apply"` or `"Maybe"` (to `False` when
the agent call raised). -/
def match_job_node (oc : WFOutcomes) (s : WFState) : WFState :=
  match oc.matchJob with
  | .ok result =>
    { s with match_result := some result,
             should_apply := result.recommendation == "Apply"
               || result.recommendation == "Maybe",
             status := "Match score: " ++ toString result.match_score ++ "/100" }
  | .error e => { s with errors := s.errors ++ ["Job matching failed: " ++ e],
                         should_apply := false }

/-- `should_continue_after_match`. -/
def should_continue_after_match (s : WFState) : String :=
  if s.should_apply then "continue" else "skip"

/-- `score_ats_node`. -/
def score_ats_node (oc : WFOutcomes) (s : WFState) : WFState :=
  match oc.scoreAts with
  | .ok result =>
    { s with ats_score := some result,
             status := "ATS score: " ++ toString result.score ++ "/100" }
  | .error e => { s with errors := s.errors ++ ["ATS scoring failed: " ++ e] }

/-- `optimize_resume_node`. -/
def optimize_resume_node (oc : WFOutcomes) (s : WFState) : WFState :=
  match oc.optimizeResume with
  | .ok result =>
    { s with optimized_resume := some result,
             status := "Resume optimized (+"
               ++ toString result.expected_score_improvement ++ " points)" }
  | .error e => { s with errors := s.errors ++ ["Resume optimization failed: " ++ e] }

/-- `write_email_node`. -/
def write_email_node (oc : WFOutcomes) (s : WFState) : WFState :=
  match oc.writeEmail with
  | .ok result => { s with email := some result, status := "Email generated" }
  | .error e => { s with errors := s.errors ++ ["Email generation failed: " ++ e] }

/-- LangGraph's `END` sentinel. -/
def ENDNode : String := "__end__"

/-- The nodes added in `_build_graph`, in the order they are added. -/
def workflowNodes : List String :=
  ["parse_resume", "research_company", "match_job",
   "score_ats", "optimize_resume", "write_email"]

/-- The entry point set in `_build_graph`. -/
def workflowEntryPoint : String := "parse_resume"

/-- The unconditional edges added in `_build_graph`. -/
def workflowEdges : List (String × String) :=
  [("parse_resume", "research_company"),
   ("research_company", "match_job"),
   ("score_ats", "optimize_resume"),
   ("optimize_resume", "write_email"),
   ("write_email", ENDNode)]

/-- The conditional edges added in `_build_graph`: from `match_job`,
routed by `should_continue_after_match`. -/
def workflowConditionalEdges : List (String × List (String × String)) :=
  [("match_job", [("continue", "score_ats"), ("skip", ENDNode)])]

/-- Every directed edge of the compiled graph (unconditional edges plus
all targets of the conditional edges). -/
def workflowAllEdges : List (String × String) :=
  workflowEdges ++ workflowConditionalEdges.flatMap
    (fun p => p.2.map (fun q => (p.1, q.2)))

/-- The edge relation of the compiled graph. -/
def graphStep (a b : String) : Prop := (a, b) ∈ workflowAllEdges

/-- Topological index of a node (position in the pipeline order, with
`END` last). -/
def nodeIdx (n : String) : ℕ := (workflowNodes ++ [ENDNode]).indexOf n

/-- The successor of node `n` in the compiled graph, given the state it
returned: conditional edges are routed by `should_continue_after_match`,
unconditional edges by the edge list; `END` (or an unknown node) has no
successor. -/
def routeAfter (n : String) (s : WFState) : Option String :=
  let target :=
    match workflowConditionalEdges.lookup n with
    | some mapping => mapping.lookup (should_continue_after_match s)
    | none => workflowEdges.lookup n
  match target with
  | some t => if t = ENDNode then none else some t
  | none => none

/-- Apply the named node's state transformer. -/
def applyNode (oc : WFOutcomes) (n : String) (s : WFState) : WFState :=
  if n = "parse_resume" then parse_resume_node oc s
  else if n = "research_company" then research_company_node oc s
  else if n = "match_job" then match_job_node oc s
  else if n = "score_ats" then score_ats_node oc s
  else if n = "optimize_resume" then optimize_resume_node oc s
  else if n = "write_email" then write_email_node oc s
  else s

/-- Execute the compiled graph from node `n` on state `s`, following
`routeAfter`, with enough fuel; returns the final state and the list of
executed nodes in execution order. -/
def runFrom (oc : WFOutcomes) : ℕ → String → WFState → WFState × List String
  | 0, _, s => (s, [])
  | fuel + 1, n, s =>
    let s2 := applyNode oc n s
    match routeAfter n s2 with
    | none => (s2, [n])
    | some m => ((runFrom oc fuel m s2).1, n :: (runFrom oc fuel m s2).2)

/-- `JobApplicationWorkflow.run`: build the initial state and execute
the compiled graph from the entry point (fuel 10 exceeds the longest
path through the 6-node graph). -/
def runWorkflow (oc : WFOutcomes) (resume_path : String) (job_posting : Job) :
    WFState × List String :=
  runFrom oc 10 workflowEntryPoint (initialState resume_path job_posting)

/-- The final state of a workflow run. -/
def workflowFinal (oc : WFOutcomes) (resume_path : String) (job_posting : Job) :
    WFState := (runWorkflow oc resume_path job_posting).1

/-- The executed nodes of a workflow run, in execution order. -/
def workflowTrace (oc : WFOutcomes) (resume_path : String) (job_posting : Job) :
    List String := (runWorkflow oc resume_path job_posting).2

/-- The value `should_apply` holds after `match_job_node`: the matcher
succeeded and recommended `"Apply"` or `"Maybe"`. -/
def shouldApplyOutcome (oc : WFOutcomes) : Bool :=
  match oc.matchJob with
  | .ok result => result.recommendation == "Apply" || result.recommendation == "Maybe"
  | .error _ => false

/-- The single error entry a node contributes when its agent call fails
(prefix as in the node's `except` branch), and nothing otherwise. -/
def exErr {α : Type} (msg : String) : Except String α → List String
  | .ok _ => []
  | .error e => [msg ++ e]

/-- The error log a full run accumulates: one entry per executed node
whose agent call failed, in pipeline order. -/
def expectedErrors (oc : WFOutcomes) : List String :=
  exErr "Resume parsing failed: " oc.parseResume
    ++ exErr "Company research failed: " oc.researchCompany
    ++ exErr "Job matching failed: " oc.matchJob
    ++ (if shouldApplyOutcome oc then
          exErr "ATS scoring failed: " oc.scoreAts
            ++ exErr "Resume optimization failed: " oc.optimizeResume
            ++ exErr "Email generation failed: " oc.writeEmail
        else [])

/-! ## Lemmas about Python rounding -/

lemma ratFloor_le (x : ℚ) : (x.floor : ℚ) ≤ x := Rat.le_floor.mp le_rfl

lemma le_ratFloor (m : ℤ) (x : ℚ) (h : (m : ℚ) ≤ x) : m ≤ x.floor := Rat.le_floor.mpr h

lemma ratFloor_eq (x : ℚ) (m : ℤ) (h1 : (m : ℚ) ≤ x) (h2 : x < (m : ℚ) + 1) :
    x.floor = m := by
  refine le_antisymm ?_ (le_ratFloor m x h1)
  by_contra hlt
  push_neg at hlt
  have hc : ((m + 1 : ℤ) : ℚ) ≤ (x.floor : ℚ) := by exact_mod_cast hlt
  have := (hc.trans (ratFloor_le x))
  push_cast at this
  linarith

lemma rnd_le_int (x : ℚ) (m : ℤ) (h : x ≤ (m : ℚ)) : rnd x ≤ m := by
  have hf : x.floor ≤ m := by exact_mod_cast (ratFloor_le x).trans h
  have hstep : 1/2 ≤ x - x.floor → x.floor + 1 ≤ m := by
    intro hge
    have h2 : (x.floor : ℚ) < (m : ℚ) := by linarith
    have h3 : x.floor < m := by exact_mod_cast h2
    omega
  unfold rnd
  split
  · exact hf
  next h1 =>
    push_neg at h1
    split
    · exact hstep (by linarith)
    · split
      · exact hf
      · exact hstep (by linarith)

lemma int_le_rnd (x : ℚ) (m : ℤ) (h : (m : ℚ) ≤ x) : m ≤ rnd x := by
  have hf : m ≤ x.floor := le_ratFloor m x h
  unfold rnd
  split
  · exact hf
  · split
    · omega
    · split
      · exact hf
      · omega

lemma rnd_intCast (m : ℤ) : rnd (m : ℚ) = m :=
  le_antisymm (rnd_le_int _ m le_rfl) (int_le_rnd _ m le_rfl)

lemma rnd_eq_of_up (x : ℚ) (m : ℤ) (h1 : (m : ℚ) ≤ x) (h2 : x < (m : ℚ) + 1)
    (h3 : 1/2 < x - (m : ℚ)) : rnd x = m + 1 := by
  have hf : x.floor = m := ratFloor_eq x m h1 h2
  unfold rnd
  rw [hf, if_neg (by linarith), if_pos (by linarith)]

lemma roundTo_le_int (n : ℕ) (x : ℚ) (m : ℤ) (h : x ≤ (m : ℚ)) :
    roundTo n x ≤ (m : ℚ) := by
  unfold roundTo
  rw [div_le_iff₀ (by positivity)]
  have h1 : x * 10 ^ n ≤ ((m * 10 ^ n : ℤ) : ℚ) := by
    push_cast
    have h10 : (0:ℚ) ≤ 10 ^ n := by positivity
    nlinarith
  have h2 := rnd_le_int (x * 10 ^ n) (m * 10 ^ n) h1
  calc ((rnd (x * 10 ^ n) : ℤ) : ℚ) ≤ ((m * 10 ^ n : ℤ) : ℚ) := by exact_mod_cast h2
    _ = (m : ℚ) * 10 ^ n := by push_cast; ring

lemma int_le_roundTo (n : ℕ) (x : ℚ) (m : ℤ) (h : (m : ℚ) ≤ x) :
    (m : ℚ) ≤ roundTo n x := by
  unfold roundTo
  rw [le_div_iff₀ (by positivity)]
  have h1 : ((m * 10 ^ n : ℤ) : ℚ) ≤ x * 10 ^ n := by
    push_cast
    have h10 : (0:ℚ) ≤ 10 ^ n := by positivity
    nlinarith
  have h2 := int_le_rnd (x * 10 ^ n) (m * 10 ^ n) h1
  calc (m : ℚ) * 10 ^ n = ((m * 10 ^ n : ℤ) : ℚ) := by push_cast; ring
    _ ≤ _ := by exact_mod_cast h2

lemma roundTo_eq_self (n : ℕ) (x : ℚ) (m : ℤ) (h : x * 10 ^ n = (m : ℚ)) :
    roundTo n x = x := by
  unfold roundTo
  rw [h, rnd_intCast, ← h]
  field_simp

/-! ## Lemmas about the scoring helpers -/

lemma calculate_heuristic_score_le (j : Job) : calculate_heuristic_score j ≤ 100 :=
  Nat.min_le_right _ _

lemma min_hundred (a b c d e f g : ℕ) (ha : a ≤ 20) (hb : b ≤ 15) (hc : c ≤ 15)
    (hd : d ≤ 10) (he : e ≤ 15) (hf : f ≤ 10) (hg : g ≤ 15) :
    min (0 + a + b + c + d + e + f + g) 100 = a + b + c + d + e + f + g
      ∧ min (0 + a + b + c + d + e + f + g) 100 ≤ 100 := by omega

lemma calculate_keyword_score_nonneg (rs jk : List String) :
    0 ≤ calculate_keyword_score rs jk := by
  unfold calculate_keyword_score
  split
  · norm_num
  · exact le_min (by positivity) (by norm_num)

lemma calculate_keyword_score_le (rs jk : List String) :
    calculate_keyword_score rs jk ≤ 100 := by
  unfold calculate_keyword_score
  split
  · norm_num
  · exact min_le_right _ _

lemma calculate_skills_score_nonneg (rs jk st : List String) :
    0 ≤ calculate_skills_score rs jk st := by
  unfold calculate_skills_score
  dsimp only
  split
  · norm_num
  · exact le_min (by positivity) (by norm_num)

lemma calculate_skills_score_le (rs jk st : List String) :
    calculate_skills_score rs jk st ≤ 100 := by
  unfold calculate_skills_score
  dsimp only
  split
  · norm_num
  · exact min_le_right _ _

/-! ## Lemmas about the workflow graph and its execution -/

lemma applyNode_parse (oc : WFOutcomes) (s : WFState) :
    applyNode oc "parse_resume" s = parse_resume_node oc s := rfl

lemma applyNode_research (oc : WFOutcomes) (s : WFState) :
    applyNode oc "research_company" s = research_company_node oc s := rfl

lemma applyNode_match (oc : WFOutcomes) (s : WFState) :
    applyNode oc "match_job" s = match_job_node oc s := rfl

lemma applyNode_score (oc : WFOutcomes) (s : WFState) :
    applyNode oc "score_ats" s = score_ats_node oc s := rfl

lemma applyNode_opt (oc : WFOutcomes) (s : WFState) :
    applyNode oc "optimize_resume" s = optimize_resume_node oc s := rfl

lemma applyNode_email (oc : WFOutcomes) (s : WFState) :
    applyNode oc "write_email" s = write_email_node oc s := rfl

lemma routeAfter_parse (s : WFState) :
    routeAfter "parse_resume" s = some "research_company" := rfl

lemma routeAfter_research (s : WFState) :
    routeAfter "research_company" s = some "match_job" := rfl

lemma routeAfter_score (s : WFState) :
    routeAfter "score_ats" s = some "optimize_resume" := rfl

lemma routeAfter_opt (s : WFState) :
    routeAfter "optimize_resume" s = some "write_email" := rfl

lemma routeAfter_email (s : WFState) : routeAfter "write_email" s = none := rfl

lemma routeAfter_match (s : WFState) :
    routeAfter "match_job" s = if s.should_apply then some "score_ats" else none := by
  cases hs : s.should_apply <;>
    simp [routeAfter, should_continue_after_match, hs, workflowConditionalEdges,
      List.lookup, ENDNode]

lemma parse_resume_node_sa (oc : WFOutcomes) (s : WFState) :
    (parse_resume_node oc s).should_apply = s.should_apply := by
  cases h : oc.parseResume <;> simp [parse_resume_node, h]

lemma research_company_node_sa (oc : WFOutcomes) (s : WFState) :
    (research_company_node oc s).should_apply = s.should_apply := by
  cases h : oc.researchCompany <;> simp [research_company_node, h]

lemma match_job_node_sa (oc : WFOutcomes) (s : WFState) :
    (match_job_node oc s).should_apply = shouldApplyOutcome oc := by
  cases h : oc.matchJob <;> simp [match_job_node, shouldApplyOutcome, h]

lemma score_ats_node_sa (oc : WFOutcomes) (s : WFState) :
    (score_ats_node oc s).should_apply = s.should_apply := by
  cases h : oc.scoreAts <;> simp [score_ats_node, h]

lemma optimize_resume_node_sa (oc : WFOutcomes) (s : WFState) :
    (optimize_resume_node oc s).should_apply = s.should_apply := by
  cases h : oc.optimizeResume <;> simp [optimize_resume_node, h]

lemma write_email_node_sa (oc : WFOutcomes) (s : WFState) :
    (write_email_node oc s).should_apply = s.should_apply := by
  cases h : oc.writeEmail <;> simp [write_email_node, h]

lemma parse_resume_node_errors (oc : WFOutcomes) (s : WFState) :
    (parse_resume_node oc s).errors =
      s.errors ++ exErr "Resume parsing failed: " oc.parseResume := by
  cases h : oc.parseResume <;> simp [parse_resume_node, exErr, h]

lemma research_company_node_errors (oc : WFOutcomes) (s : WFState) :
    (research_company_node oc s).errors =
      s.errors ++ exErr "Company research failed: " oc.researchCompany := by
  cases h : oc.researchCompany <;> simp [research_company_node, exErr, h]

lemma match_job_node_errors (oc : WFOutcomes) (s : WFState) :
    (match_job_node oc s).errors =
      s.errors ++ exErr "Job matching failed: " oc.matchJob := by
  cases h : oc.matchJob <;> simp [match_job_node, exErr, h]

lemma score_ats_node_errors (oc : WFOutcomes) (s : WFState) :
    (score_ats_node oc s).errors =
      s.errors ++ exErr "ATS scoring failed: " oc.scoreAts := by
  cases h : oc.scoreAts <;> simp [score_ats_node, exErr, h]

lemma optimize_resume_node_errors (oc : WFOutcomes) (s : WFState) :
    (optimize_resume_node oc s).errors =
      s.errors ++ exErr "Resume optimization failed: " oc.optimizeResume := by
  cases h : oc.optimizeResume <;> simp [optimize_resume_node, exErr, h]

lemma write_email_node_errors (oc : WFOutcomes) (s : WFState) :
    (write_email_node oc s).errors =
      s.errors ++ exErr "Email generation failed: " oc.writeEmail := by
  cases h : oc.writeEmail <;> simp [write_email_node, exErr, h]

lemma parse_resume_node_frame (oc : WFOutcomes) (s : WFState) :
    (parse_resume_node oc s).resume_path = s.resume_path ∧
    (parse_resume_node oc s).job_posting = s.job_posting := by
  cases h : oc.parseResume <;> simp [parse_resume_node, h]

lemma research_company_node_frame (oc : WFOutcomes) (s : WFState) :
    (research_company_node oc s).resume_path = s.resume_path ∧
    (research_company_node oc s).job_posting = s.job_posting := by
  cases h : oc.researchCompany <;> simp [research_company_node, h]

lemma match_job_node_frame (oc : WFOutcomes) (s : WFState) :
    (match_job_node oc s).resume_path = s.resume_path ∧
    (match_job_node oc s).job_posting = s.job_posting := by
  cases h : oc.matchJob <;> simp [match_job_node, h]

lemma score_ats_node_frame (oc : WFOutcomes) (s : WFState) :
    (score_ats_node oc s).resume_path = s.resume_path ∧
    (score_ats_node oc s).job_posting = s.job_posting := by
  cases h : oc.scoreAts <;> simp [score_ats_node, h]

lemma optimize_resume_node_frame (oc : WFOutcomes) (s : WFState) :
    (optimize_resume_node oc s).resume_path = s.resume_path ∧
    (optimize_resume_node oc s).job_posting = s.job_posting := by
  cases h : oc.optimizeResume <;> simp [optimize_resume_node, h]

lemma write_email_node_frame (oc : WFOutcomes) (s : WFState) :
    (write_email_node oc s).resume_path = s.resume_path ∧
    (write_email_node oc s).job_posting = s.job_posting := by
  cases h : oc.writeEmail <;> simp [write_email_node, h]

lemma score_ats_node_only_its_fields (oc : WFOutcomes) (s : WFState) :
    (score_ats_node oc s).resume_data = s.resume_data ∧
    (score_ats_node oc s).company_data = s.company_data ∧
    (score_ats_node oc s).match_result = s.match_result ∧
    (score_ats_node oc s).optimized_resume = s.optimized_resume ∧
    (score_ats_node oc s).email = s.email ∧
    (score_ats_node oc s).should_apply = s.should_apply := by
  cases h : oc.scoreAts <;> simp [score_ats_node, h]

lemma applyNode_frame (oc : WFOutcomes) (n : String) (s : WFState) :
    (applyNode oc n s).resume_path = s.resume_path ∧
    (applyNode oc n s).job_posting = s.job_posting := by
  unfold applyNode
  split_ifs
  · exact parse_resume_node_frame oc s
  · exact research_company_node_frame oc s
  · exact match_job_node_frame oc s
  · exact score_ats_node_frame oc s
  · exact optimize_resume_node_frame oc s
  · exact write_email_node_frame oc s
  · exact ⟨rfl, rfl⟩

lemma runFrom_step (oc : WFOutcomes) (fuel : ℕ) (n : String) (s : WFState) :
    runFrom oc (fuel + 1) n s =
      match routeAfter n (applyNode oc n s) with
      | none => (applyNode oc n s, [n])
      | some m => ((runFrom oc fuel m (applyNode oc n s)).1,
                   n :: (runFrom oc fuel m (applyNode oc n s)).2) := rfl

lemma runWorkflow_eq (oc : WFOutcomes) (rp : String) (jp : Job) :
    runWorkflow oc rp jp =
      if shouldApplyOutcome oc then
        (write_email_node oc (optimize_resume_node oc (score_ats_node oc
          (match_job_node oc (research_company_node oc (parse_resume_node oc
            (initialState rp jp)))))),
         ["parse_resume", "research_company", "match_job",
          "score_ats", "optimize_resume", "write_email"])
      else
        (match_job_node oc (research_company_node oc (parse_resume_node oc
          (initialState rp jp))),
         ["parse_resume", "research_company", "match_job"]) := by
  show runFrom oc (4 + 1 + 1 + 1 + 1 + 1 + 1) workflowEntryPoint
      (initialState rp jp) = _
  by_cases h : shouldApplyOutcome oc <;>
    simp [workflowEntryPoint, runFrom_step, applyNode_parse, applyNode_research,
      applyNode_match, applyNode_score, applyNode_opt, applyNode_email,
      routeAfter_parse, routeAfter_research, routeAfter_match, routeAfter_score,
      routeAfter_opt, routeAfter_email, match_job_node_sa, h]

lemma workflowTrace_eq (oc : WFOutcomes) (rp : String) (jp : Job) :
    workflowTrace oc rp jp =
      ["parse_resume", "research_company", "match_job"]
        ++ (if shouldApplyOutcome oc then
              ["score_ats", "optimize_resume", "write_email"] else []) := by
  unfold workflowTrace
  rw [runWorkflow_eq]
  by_cases h : shouldApplyOutcome oc <;> simp [h]

lemma workflowFinal_eq (oc : WFOutcomes) (rp : String) (jp : Job) :
    workflowFinal oc rp jp =
      if shouldApplyOutcome oc then
        write_email_node oc (optimize_resume_node oc (score_ats_node oc
          (match_job_node oc (research_company_node oc (parse_resume_node oc
            (initialState rp jp))))))
      else
        match_job_node oc (research_company_node oc (parse_resume_node oc
          (initialState rp jp))) := by
  unfold workflowFinal
  rw [runWorkflow_eq]
  by_cases h : shouldApplyOutcome oc <;> simp [h]

lemma graphStep_lt (a b : String) (h : graphStep a b) : nodeIdx a < nodeIdx b := by
  simp [graphStep, workflowAllEdges, workflowEdges, workflowConditionalEdges,
    ENDNode, Prod.ext_iff] at h
  rcases h with ⟨rfl, rfl⟩ | ⟨rfl, rfl⟩ | ⟨rfl, rfl⟩ | ⟨rfl, rfl⟩ | ⟨rfl, rfl⟩ |
    ⟨rfl, rfl⟩ | ⟨rfl, rfl⟩ <;> decide

lemma transGen_graphStep_lt (a b : String) (h : Relation.TransGen graphStep a b) :
    nodeIdx a < nodeIdx b := by
  induction h with
  | single h1 => exact graphStep_lt _ _ h1
  | tail _ h2 ih => exact ih.trans (graphStep_lt _ _ h2)

/-- Claim C1: the compiled workflow graph has exactly the six agent nodes
`parse_resume`, `research_company`, `match_job`, `score_ats`,
`optimize_resume`, `write_email`, with `parse_resume` as entry point,
wired in that fixed linear order; it has exactly one conditional edge
(out of `match_job`), and every edge strictly increases the pipeline
index (a topological order), so the graph has no cycles and is a DAG. -/
theorem claim_C1_graph_structure :
    workflowNodes = ["parse_resume", "research_company", "match_job",
      "score_ats", "optimize_resume", "write_email"] ∧
    workflowNodes.length = 6 ∧
    workflowEntryPoint = "parse_resume" ∧
    workflowEdges = [("parse_resume", "research_company"),
      ("research_company", "match_job"), ("score_ats", "optimize_resume"),
      ("optimize_resume", "write_email"), ("write_email", "__end__")] ∧
    workflowConditionalEdges =
      [("match_job", [("continue", "score_ats"), ("skip", "__end__")])] ∧
    workflowAllEdges.all (fun p => decide (nodeIdx p.1 < nodeIdx p.2)) = true ∧
    (∀ a : String, ¬ Relation.TransGen graphStep a a) := by
  refine ⟨rfl, rfl, rfl, rfl, rfl, by decide, fun a h => ?_⟩
  exact absurd (transGen_graphStep_lt a a h) (lt_irrefl _)

/-- Claim C6: `_calculate_heuristic_score` is the plain sum of the seven
red-flag penalties (20 for a missing/falsy salary, 15 for a description
shorter than 100 characters, 15 for an urgency keyword, 10 for `5+
years`/`10+ years` in an entry/junior posting, 5 per known typo capped
at 15, 10 for a generic company name shorter than 15 characters, 15 when
neither `requirements` nor `qualifications` appears); the `min(score,
100)` cap keeps the result in `[0, 100]` (indeed the seven maxima sum to
exactly 100, so the cap never cuts). -/
theorem claim_C6_heuristic_red_flags (j : Job) :
    calculate_heuristic_score j =
        (if optStrTruthy j.salary then 0 else 20)
      + (if (jobDescLower j).length < 100 then 15 else 0)
      + (if urgency_words.any (fun w => strContains (jobDescLower j) w) then 15 else 0)
      + (if (strContains (jobTitleLower j) "entry" || strContains (jobTitleLower j) "junior")
            && (strContains (jobDescLower j) "5+ years"
                || strContains (jobDescLower j) "10+ years")
         then 10 else 0)
      + min ((typo_indicators.countP (fun t => strContains (jobDescLower j) t)) * 5) 15
      + (if generic_names.any (fun n => strContains (jobCompanyLower j) n)
            && (jobCompanyLower j).length < 15 then 10 else 0)
      + (if !strContains (jobDescLower j) "requirements"
            && !strContains (jobDescLower j) "qualifications" then 15 else 0)
    ∧ calculate_heuristic_score j ≤ 100 :=
  min_hundred _ _ _ _ _ _ _
    (by split <;> omega) (by split <;> omega) (by split <;> omega)
    (by split <;> omega) (Nat.min_le_right _ _) (by split <;> omega)
    (by split <;> omega)

/-- Claim C4: `GhostJobDetector.run` combines the heuristic and LLM
signals as `final_score = heuristic * 0.4 + llm_score * 0.6` with the
LLM score defaulting to 50, reports `is_ghost_job` exactly when that
final score exceeds 60, maps it to `"Apply"` below 40, `"Caution"` in
`[40, 65)` and `"Skip"` at 65 or above, and reports `ghost_score` as the
final score rounded to one decimal (so exactly the weighted sum whenever
the LLM score is an integer, as the heuristic score always is). -/
theorem claim_C4_ghost_score_combination (job : Job) (llm : Option GhostLLM) :
    ∃ r, ghostRun (some job) llm = Except.ok r ∧
      r.ghost_score = roundTo 1 (ghost_final_score job llm) ∧
      (r.is_ghost_job = true ↔ ghost_final_score job llm > 60) ∧
      r.recommendation = (if ghost_final_score job llm < 40 then "Apply"
        else if ghost_final_score job llm < 65 then "Caution" else "Skip") ∧
      (∀ rf, ghost_final_score job (some { score := none, red_flags := rf }) =
        (calculate_heuristic_score job : ℚ) * (4/10) + 50 * (6/10)) ∧
      (∀ m : ℤ, ((llmAnalysisDict llm).score.getD 50) = (m : ℚ) →
        roundTo 1 (ghost_final_score job llm) = ghost_final_score job llm) := by
  refine ⟨_, rfl, rfl, by simp, rfl, fun rf => rfl, fun m hm => ?_⟩
  refine roundTo_eq_self 1 _ (4 * (calculate_heuristic_score job : ℤ) + 6 * m) ?_
  unfold ghost_final_score
  rw [hm]
  push_cast
  ring

/-- Claim C10 counterexample: at the job posting with no title, company,
description or salary (heuristic score 50) and an LLM score of 47 (both
scores in `[0, 100]`), the final score is 48.2, the reported
`ghost_score` is 48.2, and the reported confidence is
`round(0.036, 2) = 0.04`, which is not `|48.2 - 50| / 50 = 0.036`: the
claimed equation `confidence = |ghost_score - 50| / 50` fails because
the code rounds the confidence to two decimals. -/
theorem claim_C10_counterexample :
    ghostRun (some { title := none, company := none, description := none, salary := none })
        (some { score := some 47, red_flags := some [] }) =
      Except.ok { is_ghost_job := false, confidence := 1/25, ghost_score := 241/5,
                  red_flags := [], recommendation := "Caution" } ∧
    (0 : ℚ) ≤ (llmAnalysisDict (some { score := some 47, red_flags := some [] })).score.getD 50 ∧
    (llmAnalysisDict (some { score := some 47, red_flags := some [] })).score.getD 50 ≤ 100 ∧
    (1/25 : ℚ) ≠ |(241/5 : ℚ) - 50| / 50 := by
  have hheur : calculate_heuristic_score
      { title := none, company := none, description := none, salary := none } = 50 := by
    decide
  have habs : |(241/5 : ℚ) - 50| = 9/5 := by
    rw [show (241/5 - 50 : ℚ) = -(9/5) by norm_num, abs_neg,
      abs_of_nonneg (by norm_num : (0:ℚ) ≤ 9/5)]
  have hfs : ghost_final_score
      { title := none, company := none, description := none, salary := none }
      (some { score := some 47, red_flags := some [] }) = 241/5 := by
    unfold ghost_final_score
    rw [hheur]
    norm_num [llmAnalysisDict]
  have hconf : roundTo 2 ((9/5 : ℚ) / 50) = 1/25 := by
    unfold roundTo
    rw [show ((9/5 : ℚ) / 50 * 10 ^ 2) = 18/5 by norm_num,
      rnd_eq_of_up (18/5) 3 (by norm_num) (by norm_num) (by norm_num)]
    norm_num
  have hscore : roundTo 1 (241/5 : ℚ) = 241/5 :=
    roundTo_eq_self 1 _ 482 (by norm_num)
  have hrec : get_recommendation (241/5) = "Caution" := by
    unfold get_recommendation
    rw [if_neg (by norm_num), if_pos (by norm_num)]
  refine ⟨?_, by norm_num [llmAnalysisDict], by norm_num [llmAnalysisDict], ?_⟩
  · simp only [ghostRun, hfs]
    rw [habs, hconf, hscore, hrec]
    norm_num [llmAnalysisDict]
  · rw [habs]
    norm_num

/-- Claim C10, amended: for every run of `GhostJobDetector.run` whose LLM
score lies in `[0, 100]`, the reported confidence equals
`round(|final_score - 50| / 50, 2)` (the rounding happens before
reporting, so the equation with the reported one-decimal `ghost_score`
does not hold exactly), the confidence lies in `[0, 1]`, and whenever
`is_ghost_job` is true the recommendation is `"Caution"` or `"Skip"`,
never `"Apply"`. -/
theorem claim_C10_confidence_invariant (job : Job) (llm : Option GhostLLM)
    (h0 : 0 ≤ (llmAnalysisDict llm).score.getD 50)
    (h1 : (llmAnalysisDict llm).score.getD 50 ≤ 100) :
    ∃ r, ghostRun (some job) llm = Except.ok r ∧
      r.confidence = roundTo 2 (|ghost_final_score job llm - 50| / 50) ∧
      0 ≤ r.confidence ∧ r.confidence ≤ 1 ∧
      (r.is_ghost_job = false ∨
        r.recommendation = "Caution" ∨ r.recommendation = "Skip") := by
  have hh0 : (0 : ℚ) ≤ (calculate_heuristic_score job : ℚ) := by positivity
  have hh1 : (calculate_heuristic_score job : ℚ) ≤ 100 := by
    exact_mod_cast calculate_heuristic_score_le job
  have hfs0 : 0 ≤ ghost_final_score job llm := by
    unfold ghost_final_score
    nlinarith
  have hfs1 : ghost_final_score job llm ≤ 100 := by
    unfold ghost_final_score
    nlinarith
  have habs : |ghost_final_score job llm - 50| ≤ 50 :=
    abs_le.mpr ⟨by linarith, by linarith⟩
  have hx0 : (0 : ℚ) ≤ |ghost_final_score job llm - 50| / 50 :=
    div_nonneg (abs_nonneg _) (by norm_num)
  have hx1 : |ghost_final_score job llm - 50| / 50 ≤ 1 :=
    (div_le_one (by norm_num)).mpr habs
  refine ⟨_, rfl, rfl, ?_, ?_, ?_⟩
  · have := int_le_roundTo 2 (|ghost_final_score job llm - 50| / 50) 0 (by push_cast; linarith)
    push_cast at this
    exact this
  · have := roundTo_le_int 2 (|ghost_final_score job llm - 50| / 50) 1 (by push_cast; linarith)
    push_cast at this
    exact this
  · by_cases hg : ghost_final_score job llm > 60
    · right
      by_cases h65 : ghost_final_score job llm < 65
      · left
        show get_recommendation _ = _
        unfold get_recommendation
        rw [if_neg (by linarith), if_pos h65]
      · right
        show get_recommendation _ = _
        unfold get_recommendation
        rw [if_neg (by linarith), if_neg h65]
    · left
      show decide _ = false
      simpa using hg

/-- Claim C10 witness: the amended claim instantiated at a concrete
well-formed job posting with an unparseable LLM response (LLM score
defaults to 50). -/
theorem claim_C10_witness :
    ∃ r, ghostRun
        (some { title := some "Data Engineer", company := some "Acme Labs",
                description := some "We build data pipelines.", salary := some "$150k" })
        none = Except.ok r ∧
      r.confidence = roundTo 2 (|ghost_final_score
        { title := some "Data Engineer", company := some "Acme Labs",
          description := some "We build data pipelines.", salary := some "$150k" }
        none - 50| / 50) ∧
      0 ≤ r.confidence ∧ r.confidence ≤ 1 ∧
      (r.is_ghost_job = false ∨
        r.recommendation = "Caution" ∨ r.recommendation = "Skip") :=
  claim_C10_confidence_invariant _ none
    (by norm_num [llmAnalysisDict, ghostLLMFallback])
    (by norm_num [llmAnalysisDict, ghostLLMFallback])

/-- Claim C5: when its inputs pass validation, `ATSScorer.run` returns a
total score equal to `keyword_score * 0.4 + skills_score * 0.3 +
experience_score * 0.2 + format_score * 0.1` rounded to one decimal
(matching the stated 40/30/20/10 weighting), and whenever the two LLM
components lie in `[0, 100]` (the keyword and skills components always
do), the returned score lies in `[0, 100]`. -/
theorem claim_C5_ats_weighted_score (resume_data : ResumeDict) (job_description : String)
    (stack : Option (List String)) (llm : Option AtsLLM)
    (hjd : job_description ≠ "")
    (he0 : 0 ≤ (llm.getD atsLLMFallback).experience_score.getD 70)
    (he1 : (llm.getD atsLLMFallback).experience_score.getD 70 ≤ 100)
    (hf0 : 0 ≤ (llm.getD atsLLMFallback).format_score.getD 90)
    (hf1 : (llm.getD atsLLMFallback).format_score.getD 90 ≤ 100) :
    ∃ r, atsRun
        { resume_data := some resume_data,
          job_description := some job_description,
          company_tech_stack := stack } llm = Except.ok r ∧
      r.score = roundTo 1 (
        calculate_keyword_score (extract_resume_skills resume_data)
            (extract_keywords job_description) * (4/10)
          + calculate_skills_score (extract_resume_skills resume_data)
              (extract_keywords job_description) (stack.getD []) * (3/10)
          + ((llm.getD atsLLMFallback).experience_score.getD 70) * (2/10)
          + ((llm.getD atsLLMFallback).format_score.getD 90) * (1/10)) ∧
      0 ≤ r.score ∧ r.score ≤ 100 := by
  have hk0 := calculate_keyword_score_nonneg (extract_resume_skills resume_data)
    (extract_keywords job_description)
  have hk1 := calculate_keyword_score_le (extract_resume_skills resume_data)
    (extract_keywords job_description)
  have hs0 := calculate_skills_score_nonneg (extract_resume_skills resume_data)
    (extract_keywords job_description) (stack.getD [])
  have hs1 := calculate_skills_score_le (extract_resume_skills resume_data)
    (extract_keywords job_description) (stack.getD [])
  have hrun : atsRun
      { resume_data := some resume_data,
        job_description := some job_description,
        company_tech_stack := stack } llm =
      (if job_description = "" then
        Except.error (PyError.valueError "resume_data and job_description are required")
      else Except.ok
        { score := roundTo 1 (
            calculate_keyword_score (extract_resume_skills resume_data)
                (extract_keywords job_description) * (4/10)
              + calculate_skills_score (extract_resume_skills resume_data)
                  (extract_keywords job_description) (stack.getD []) * (3/10)
              + ((llm.getD atsLLMFallback).experience_score.getD 70) * (2/10)
              + ((llm.getD atsLLMFallback).format_score.getD 90) * (1/10)),
          breakdown :=
            { keyword_score := roundTo 1 (calculate_keyword_score
                (extract_resume_skills resume_data) (extract_keywords job_description)),
              skills_score := roundTo 1 (calculate_skills_score
                (extract_resume_skills resume_data) (extract_keywords job_description)
                (stack.getD [])),
              experience_score := (llm.getD atsLLMFallback).experience_score.getD 70,
              format_score := (llm.getD atsLLMFallback).format_score.getD 90 },
          missing_keywords := ((extract_keywords job_description).filter
            (fun k => !((extract_resume_skills resume_data).contains k))).take 10,
          recommendations := (llm.getD atsLLMFallback).recommendations.getD [],
          strengths := (llm.getD atsLLMFallback).strengths.getD [] }) := rfl
  rw [if_neg hjd] at hrun
  have key : ∀ x : ℚ, 0 ≤ x → x ≤ 100 → 0 ≤ roundTo 1 x ∧ roundTo 1 x ≤ 100 := by
    intro x hx0 hx1
    constructor
    · have h2 := int_le_roundTo 1 x 0 (by push_cast; linarith)
      push_cast at h2
      exact h2
    · have h2 := roundTo_le_int 1 x 100 (by push_cast; linarith)
      push_cast at h2
      exact h2
  have hb := key (calculate_keyword_score (extract_resume_skills resume_data)
        (extract_keywords job_description) * (4/10)
      + calculate_skills_score (extract_resume_skills resume_data)
          (extract_keywords job_description) (stack.getD []) * (3/10)
      + ((llm.getD atsLLMFallback).experience_score.getD 70) * (2/10)
      + ((llm.getD atsLLMFallback).format_score.getD 90) * (1/10))
    (by nlinarith) (by nlinarith)
  exact ⟨_, hrun, rfl, hb.1, hb.2⟩

/-- Claim C5 witness: the weighted-score theorem instantiated at a
one-skill resume, the job description `"Python"`, no tech stack, and an
LLM analysis scoring experience 80 and format 90. -/
theorem claim_C5_witness :
    ∃ r, atsRun
        { resume_data := some
            { skills := some (SkillsVal.list ["Python"]),
              experience := none, raw_text := none },
          job_description := some "Python",
          company_tech_stack := none }
        (some { experience_score := some 80, format_score := some 90,
                recommendations := some [], strengths := some [] }) = Except.ok r ∧
      r.score = roundTo 1 (
        calculate_keyword_score
            (extract_resume_skills
              { skills := some (SkillsVal.list ["Python"]),
                experience := none, raw_text := none })
            (extract_keywords "Python") * (4/10)
          + calculate_skills_score
              (extract_resume_skills
                { skills := some (SkillsVal.list ["Python"]),
                  experience := none, raw_text := none })
              (extract_keywords "Python")
              ((none : Option (List String)).getD []) * (3/10)
          + (((some { experience_score := some 80, format_score := some 90,
                      recommendations := some [], strengths := some [] } :
              Option AtsLLM)).getD atsLLMFallback).experience_score.getD 70 * (2/10)
          + (((some { experience_score := some 80, format_score := some 90,
                      recommendations := some [], strengths := some [] } :
              Option AtsLLM)).getD atsLLMFallback).format_score.getD 90 * (1/10)) ∧
      0 ≤ r.score ∧ r.score ≤ 100 :=
  claim_C5_ats_weighted_score _ _ _ _ (by decide)
    (by norm_num [Option.getD]) (by norm_num [Option.getD])
    (by norm_num [Option.getD]) (by norm_num [Option.getD])

/-- Claim C9: `ATSScorer.run` raises `ValueError` whenever its input
lacks a truthy `resume_data` or a truthy `job_description`, and the
result then does not depend on the LLM oracle (the validation fires
before any keyword extraction or LLM call); `JobMatcher.run` behaves the
same for `resume_data`/`job_posting`.  When the required inputs are
present, the validation raises nothing and the run returns a result. -/
theorem claim_C9_input_validation (iA : AtsInput) (lA lA' : Option AtsLLM)
    (iM : MatchInput) (lM lM' : MatchLLM) :
    (atsValid iA = true ∨
      (atsRun iA lA =
        Except.error (PyError.valueError "resume_data and job_description are required") ∧
       atsRun iA lA = atsRun iA lA')) ∧
    ((∃ r, atsRun iA lA = Except.ok r) ↔ atsValid iA = true) ∧
    (matcherValid iM = true ∨
      (matcherRun iM lM =
        Except.error (PyError.valueError "resume_data and job_posting are required") ∧
       matcherRun iM lM = matcherRun iM lM')) ∧
    ((∃ r, matcherRun iM lM = Except.ok r) ↔ matcherValid iM = true) := by
  obtain ⟨rd, jd, st⟩ := iA
  obtain ⟨mrd, mjp, mcd⟩ := iM
  refine ⟨?_, ?_, ?_, ?_⟩
  · cases rd <;> cases jd <;> simp [atsValid, atsRun]
    next s =>
      by_cases hs : s = "" <;> simp [hs]
  · cases rd <;> cases jd <;> simp [atsValid, atsRun]
    next s =>
      by_cases hs : s = "" <;> simp [hs]
  · cases mrd <;> cases mjp <;> simp [matcherValid, matcherRun]
  · cases mrd <;> cases mjp <;> simp [matcherValid, matcherRun]

lemma append_exErr_cases {α : Type} (l : List String) (msg : String)
    (x : Except String α) :
    l ++ exErr msg x = l ∨ ∃ m, l ++ exErr msg x = l ++ [m] := by
  cases x with
  | ok a => left; simp [exErr]
  | error e => right; exact ⟨msg ++ e, rfl⟩

lemma parse_resume_node_path (oc : WFOutcomes) (s : WFState) :
    (parse_resume_node oc s).resume_path = s.resume_path :=
  (parse_resume_node_frame oc s).1

lemma parse_resume_node_posting (oc : WFOutcomes) (s : WFState) :
    (parse_resume_node oc s).job_posting = s.job_posting :=
  (parse_resume_node_frame oc s).2

lemma research_company_node_path (oc : WFOutcomes) (s : WFState) :
    (research_company_node oc s).resume_path = s.resume_path :=
  (research_company_node_frame oc s).1

lemma research_company_node_posting (oc : WFOutcomes) (s : WFState) :
    (research_company_node oc s).job_posting = s.job_posting :=
  (research_company_node_frame oc s).2

lemma match_job_node_path (oc : WFOutcomes) (s : WFState) :
    (match_job_node oc s).resume_path = s.resume_path :=
  (match_job_node_frame oc s).1

lemma match_job_node_posting (oc : WFOutcomes) (s : WFState) :
    (match_job_node oc s).job_posting = s.job_posting :=
  (match_job_node_frame oc s).2

lemma score_ats_node_path (oc : WFOutcomes) (s : WFState) :
    (score_ats_node oc s).resume_path = s.resume_path :=
  (score_ats_node_frame oc s).1

lemma score_ats_node_posting (oc : WFOutcomes) (s : WFState) :
    (score_ats_node oc s).job_posting = s.job_posting :=
  (score_ats_node_frame oc s).2

lemma optimize_resume_node_path (oc : WFOutcomes) (s : WFState) :
    (optimize_resume_node oc s).resume_path = s.resume_path :=
  (optimize_resume_node_frame oc s).1

lemma optimize_resume_node_posting (oc : WFOutcomes) (s : WFState) :
    (optimize_resume_node oc s).job_posting = s.job_posting :=
  (optimize_resume_node_frame oc s).2

lemma write_email_node_path (oc : WFOutcomes) (s : WFState) :
    (write_email_node oc s).resume_path = s.resume_path :=
  (write_email_node_frame oc s).1

lemma write_email_node_posting (oc : WFOutcomes) (s : WFState) :
    (write_email_node oc s).job_posting = s.job_posting :=
  (write_email_node_frame oc s).2

/-- Claim C2: in every run, the trace is the three-node prefix followed
by the remaining three nodes exactly when `should_apply` holds after
`match_job`; `score_ats`, `optimize_resume` and `write_email` execute
if and only if `should_apply` holds; the final `should_apply` equals it;
and it holds exactly when the matcher call succeeded with recommendation
`"Apply"` or `"Maybe"` (so it is `false` whenever the call raised). -/
theorem claim_C2_conditional_branch (oc : WFOutcomes) (rp : String) (jp : Job) :
    workflowTrace oc rp jp =
      ["parse_resume", "research_company", "match_job"]
        ++ (if shouldApplyOutcome oc then
              ["score_ats", "optimize_resume", "write_email"] else []) ∧
    ("score_ats" ∈ workflowTrace oc rp jp ↔ shouldApplyOutcome oc = true) ∧
    ("optimize_resume" ∈ workflowTrace oc rp jp ↔ shouldApplyOutcome oc = true) ∧
    ("write_email" ∈ workflowTrace oc rp jp ↔ shouldApplyOutcome oc = true) ∧
    (workflowFinal oc rp jp).should_apply = shouldApplyOutcome oc ∧
    (shouldApplyOutcome oc = true ↔
      ∃ result, oc.matchJob = Except.ok result ∧
        (result.recommendation = "Apply" ∨ result.recommendation = "Maybe")) := by
  have ht := workflowTrace_eq oc rp jp
  refine ⟨ht, ?_, ?_, ?_, ?_, ?_⟩
  · rw [ht]; by_cases h : shouldApplyOutcome oc <;> simp [h]
  · rw [ht]; by_cases h : shouldApplyOutcome oc <;> simp [h]
  · rw [ht]; by_cases h : shouldApplyOutcome oc <;> simp [h]
  · rw [workflowFinal_eq]
    by_cases h : shouldApplyOutcome oc <;>
      simp [h, write_email_node_sa, optimize_resume_node_sa, score_ats_node_sa,
        match_job_node_sa]
  · cases hm : oc.matchJob <;> simp [shouldApplyOutcome, hm]

/-- Claim C3: every node catches its agent call's exception and appends
at most one entry to `errors` (exactly one when the call fails, none
otherwise), never removing entries; starting from the empty initial
error list, the final state's errors are exactly one entry per executed
node whose agent call failed, in pipeline order. -/
theorem claim_C3_error_accumulation (oc : WFOutcomes) (rp : String) (jp : Job) :
    (∀ n s, (applyNode oc n s).errors = s.errors ∨
      ∃ msg, (applyNode oc n s).errors = s.errors ++ [msg]) ∧
    (initialState rp jp).errors = [] ∧
    (workflowFinal oc rp jp).errors = expectedErrors oc := by
  refine ⟨?_, rfl, ?_⟩
  · intro n s
    unfold applyNode
    split_ifs
    · rw [parse_resume_node_errors]; exact append_exErr_cases _ _ _
    · rw [research_company_node_errors]; exact append_exErr_cases _ _ _
    · rw [match_job_node_errors]; exact append_exErr_cases _ _ _
    · rw [score_ats_node_errors]; exact append_exErr_cases _ _ _
    · rw [optimize_resume_node_errors]; exact append_exErr_cases _ _ _
    · rw [write_email_node_errors]; exact append_exErr_cases _ _ _
    · left; rfl
  · rw [workflowFinal_eq]
    by_cases h : shouldApplyOutcome oc <;>
      simp [h, expectedErrors, write_email_node_errors, optimize_resume_node_errors,
        score_ats_node_errors, match_job_node_errors, research_company_node_errors,
        parse_resume_node_errors, initialState]

/-- Claim C7: in every run each of the six agent nodes executes at most
once (the trace has no duplicates), the executed nodes form a
subsequence of the fixed pipeline order (strictly sequential execution,
never revisiting a completed node), and the trace is exactly the
three-node prefix, extended by the remaining three nodes only when the
match branch continues. -/
theorem claim_C7_nodes_execute_at_most_once (oc : WFOutcomes) (rp : String) (jp : Job) :
    (workflowTrace oc rp jp).Nodup ∧
    List.Sublist (workflowTrace oc rp jp) workflowNodes ∧
    workflowTrace oc rp jp =
      ["parse_resume", "research_company", "match_job"]
        ++ (if shouldApplyOutcome oc then
              ["score_ats", "optimize_resume", "write_email"] else []) := by
  have ht := workflowTrace_eq oc rp jp
  refine ⟨?_, ?_, ht⟩ <;> rw [ht] <;>
    by_cases h : shouldApplyOutcome oc <;> simp [h, workflowNodes]

/-- Claim C8: every node leaves the input fields `resume_path` and
`job_posting` unchanged; `score_ats_node` changes only `ats_score`,
`status` and `errors` (all other state fields are preserved); and over a
whole run the final state keeps the initial `resume_path` and
`job_posting`. -/
theorem claim_C8_frame_conditions (oc : WFOutcomes) (n : String) (s : WFState)
    (rp : String) (jp : Job) :
    (applyNode oc n s).resume_path = s.resume_path ∧
    (applyNode oc n s).job_posting = s.job_posting ∧
    (score_ats_node oc s).resume_data = s.resume_data ∧
    (score_ats_node oc s).company_data = s.company_data ∧
    (score_ats_node oc s).match_result = s.match_result ∧
    (score_ats_node oc s).optimized_resume = s.optimized_resume ∧
    (score_ats_node oc s).email = s.email ∧
    (score_ats_node oc s).should_apply = s.should_apply ∧
    (workflowFinal oc rp jp).resume_path = rp ∧
    (workflowFinal oc rp jp).job_posting = jp := by
  obtain ⟨h1, h2⟩ := applyNode_frame oc n s
  obtain ⟨f1, f2, f3, f4, f5, f6⟩ := score_ats_node_only_its_fields oc s
  refine ⟨h1, h2, f1, f2, f3, f4, f5, f6, ?_, ?_⟩ <;>
    rw [workflowFinal_eq] <;>
    by_cases h : shouldApplyOutcome oc <;>
    simp [h, initialState, parse_resume_node_path, parse_resume_node_posting,
      research_company_node_path, research_company_node_posting,
      match_job_node_path, match_job_node_posting, score_ats_node_path,
      score_ats_node_posting, optimize_resume_node_path, optimize_resume_node_posting,
      write_email_node_path, write_email_node_posting]
